import Mathlib

/-!
Verification of the PiCom push-to-talk intercom service
(`PiComService` / `MumbleClientWrapper` in `src/bin/mic-demo.js`).

The JavaScript source is shallowly embedded: timestamps are integers
(milliseconds), the mutable service state is an explicit record, and each
method becomes a state-transforming function.  Fallible operations return
`Except`/`Option` values.
-/

/-! ## TalkController state (`PiComService.state`, `_txTimes`, `_stopTxTimes`)

Timestamps are milliseconds as integers.  History lists are newest-first,
as produced by `unshift` followed by `slice(0,2)` in the source.
`micPaused` mirrors the external microphone stream (`mic.pause()` /
`mic.resume()`); `talkLed` mirrors `hardware.setTalkLed`. -/

structure TalkState where
  transmitting : Bool
  micLatch : Bool
  calling : Bool
  txTimes : List Int
  stopTxTimes : List Int
  micPaused : Bool
  talkLed : Bool
  callLed : Bool
deriving Repr, DecidableEq

/-- `LATCH_TIME_MS = 500` from the source. -/
def LATCH_TIME_MS : Int := 500

inductive EdgeDir where
  | down
  | up
deriving Repr, DecidableEq

def EdgeDir.other : EdgeDir → EdgeDir
  | EdgeDir.down => EdgeDir.up
  | EdgeDir.up => EdgeDir.down

/-- The three timing comparisons of `_latchLogic`: first hold duration,
second hold duration, and time between the two key-downs.  The gap window
is `LATCH_TIME_MS * 1.5 = 750` (written as exact integer arithmetic). -/
def latchCond (t0 t1 u0 u1 : Int) : Prop :=
  u1 - t1 ≤ LATCH_TIME_MS ∧ u0 - t0 ≤ LATCH_TIME_MS ∧
    t0 - t1 ≤ LATCH_TIME_MS * 3 / 2

instance latchCond.decidableInst (t0 t1 u0 u1 : Int) :
    Decidable (latchCond t0 t1 u0 u1) := by
  unfold latchCond; infer_instance

/-- `PiComService._latchLogic`.  The source guards on
`_txTimes.length === 2` and then reads indices 0 and 1 of both history
arrays; a missing `_stopTxTimes[1]` makes the hold-duration comparison
`NaN <= 500`, which is false, so the fall-through sets `micLatch = false`. -/
def latchLogic (s : TalkState) : TalkState :=
  match s.txTimes, s.stopTxTimes with
  | [t0, t1], u0 :: u1 :: _ =>
    if latchCond t0 t1 u0 u1 then
      { s with micLatch := true, txTimes := [] }
    else
      { s with micLatch := false }
  | _, _ => { s with micLatch := false }

/-- The first two statements of the key-up branch of `_txEvent`: record
the stop timestamp (cap 2, newest first) and clear `micLatch` before the
latch decision runs. -/
def upRecorded (t : Int) (s : TalkState) : TalkState :=
  { s with stopTxTimes := (t :: s.stopTxTimes).take 2, micLatch := false }

/-- `PiComService._txEvent`.  `down` resumes the microphone, records the
timestamp (cap 2, newest first), sets `transmitting` and the talk LED.
`up` records the stop timestamp, clears `micLatch`, runs `_latchLogic`,
and only pauses/clears when the latch did not engage. -/
def txEvent (d : EdgeDir) (t : Int) (s : TalkState) : TalkState :=
  match d with
  | EdgeDir.down =>
    { s with micPaused := false,
             txTimes := (t :: s.txTimes).take 2,
             transmitting := true,
             talkLed := true }
  | EdgeDir.up =>
    let s2 := latchLogic (upRecorded t s)
    if s2.micLatch then s2
    else { s2 with micPaused := true, transmitting := false, talkLed := false }

/-- Service state after the constructor plus `_setupMic` (the microphone is
started and then immediately paused; nothing transmits). -/
def initTalkState : TalkState :=
  { transmitting := false, micLatch := false, calling := false,
    txTimes := [], stopTxTimes := [], micPaused := true,
    talkLed := false, callLed := false }

def runTalkFrom (tr : List (EdgeDir × Int)) (s : TalkState) : TalkState :=
  tr.foldl (fun s e => txEvent e.1 e.2 s) s

def runTalk (tr : List (EdgeDir × Int)) : TalkState :=
  runTalkFrom tr initTalkState

/-- `PiComService.unLatchMic`: when latched, simulate releasing the talk
button; otherwise throw `ErrorWithStatusCode` with code 400. -/
def unLatchMic (t : Int) (s : TalkState) : Except Nat TalkState :=
  if s.micLatch then Except.ok (txEvent EdgeDir.up t s)
  else Except.error 400

/-! ### Helper lemmas about `latchLogic` -/

theorem latchCond_iff (t0 t1 u0 u1 : Int) :
    latchCond t0 t1 u0 u1 ↔
      u1 - t1 ≤ 500 ∧ u0 - t0 ≤ 500 ∧ t0 - t1 ≤ 750 := by
  unfold latchCond LATCH_TIME_MS
  norm_num

/-- Complete case analysis of `_latchLogic`: either the history shapes and
timing conditions are met, the latch engages and the down-history is
cleared, or nothing happens except `micLatch := false`. -/
theorem latchLogic_spec (s : TalkState) :
    (∃ t0 t1 u0 u1 r, s.txTimes = [t0, t1] ∧ s.stopTxTimes = u0 :: u1 :: r ∧
        latchCond t0 t1 u0 u1 ∧
        latchLogic s = { s with micLatch := true, txTimes := [] }) ∨
    ((∀ t0 t1 u0 u1 r, s.txTimes = [t0, t1] → s.stopTxTimes = u0 :: u1 :: r →
        ¬ latchCond t0 t1 u0 u1) ∧
      latchLogic s = { s with micLatch := false }) := by
  obtain ⟨tr, ml, cal, tx, stop, mp, tl, cl⟩ := s
  rcases tx with _ | ⟨t0, _ | ⟨t1, _ | ⟨t2, rest⟩⟩⟩ <;>
    rcases stop with _ | ⟨u0, _ | ⟨u1, srest⟩⟩ <;>
    try (right; refine ⟨?_, rfl⟩; intro a b c d r h1 h2; simp at h1 h2)
  by_cases hc : latchCond t0 t1 u0 u1
  · left
    exact ⟨t0, t1, u0, u1, srest, rfl, rfl, hc, by simp [latchLogic, hc]⟩
  · right
    refine ⟨?_, by simp [latchLogic, hc]⟩
    intro a b c d r h1 h2
    simp only [TalkState.txTimes, TalkState.stopTxTimes, List.cons.injEq,
      List.cons.injEq] at h1 h2
    obtain ⟨rfl, rfl, -⟩ := h1
    obtain ⟨rfl, rfl, -⟩ := h2
    exact hc

theorem latchLogic_fields (s : TalkState) :
    (latchLogic s).transmitting = s.transmitting ∧
    (latchLogic s).micPaused = s.micPaused ∧
    (latchLogic s).talkLed = s.talkLed ∧
    (latchLogic s).stopTxTimes = s.stopTxTimes ∧
    (latchLogic s).calling = s.calling ∧
    (latchLogic s).callLed = s.callLed := by
  rcases latchLogic_spec s with ⟨_, _, _, _, _, _, _, _, heq⟩ | ⟨_, heq⟩ <;>
    rw [heq] <;> exact ⟨rfl, rfl, rfl, rfl, rfl, rfl⟩

theorem latchLogic_short (s : TalkState) (h : s.txTimes.length ≤ 1) :
    latchLogic s = { s with micLatch := false } := by
  rcases latchLogic_spec s with ⟨_, _, _, _, _, h1, _, _, _⟩ | ⟨_, heq⟩
  · rw [h1] at h; simp at h
  · exact heq

theorem latchLogic_latched_txTimes (s : TalkState)
    (h : (latchLogic s).micLatch = true) : (latchLogic s).txTimes = [] := by
  rcases latchLogic_spec s with ⟨_, _, _, _, _, _, _, _, heq⟩ | ⟨_, heq⟩
  · rw [heq]
  · rw [heq] at h; simp at h

theorem latchLogic_not_latched (s : TalkState)
    (h : (latchLogic s).micLatch = false) :
    latchLogic s = { s with micLatch := false } := by
  rcases latchLogic_spec s with ⟨_, _, _, _, _, _, _, _, heq⟩ | ⟨_, heq⟩
  · rw [heq] at h; simp at h
  · exact heq

/-- C1: the latch decision (`_latchLogic`, run from the key-up branch of
`_txEvent`) engages the latch iff the key-down history holds exactly two
entries, the key-up history holds exactly two entries (it can never hold
more), hold1 = stopTime[1] - downTime[1] ≤ 500 ms,
hold2 = stopTime[0] - downTime[0] ≤ 500 ms, and the gap
downTime[0] - downTime[1] ≤ 750 ms.  When it engages it clears the
key-down history; otherwise it leaves `micLatch = false` and changes
nothing else. -/
theorem latch_decision_characterization (s : TalkState)
    (hlen : s.stopTxTimes.length ≤ 2) :
    ((latchLogic s).micLatch = true ↔
      ∃ t0 t1 u0 u1, s.txTimes = [t0, t1] ∧ s.stopTxTimes = [u0, u1] ∧
        u1 - t1 ≤ 500 ∧ u0 - t0 ≤ 500 ∧ t0 - t1 ≤ 750) ∧
    ((latchLogic s).micLatch = true → (latchLogic s).txTimes = []) ∧
    ((latchLogic s).micLatch = false →
      latchLogic s = { s with micLatch := false }) := by
  refine ⟨⟨?_, ?_⟩, latchLogic_latched_txTimes s, latchLogic_not_latched s⟩
  · intro h
    rcases latchLogic_spec s with ⟨t0, t1, u0, u1, r, h1, h2, hc, heq⟩ |
      ⟨_, heq⟩
    · have hr : r = [] := by
        rw [h2] at hlen
        simp only [List.length_cons] at hlen
        exact List.eq_nil_of_length_eq_zero (by omega)
      subst hr
      obtain ⟨c1, c2, c3⟩ := (latchCond_iff t0 t1 u0 u1).mp hc
      exact ⟨t0, t1, u0, u1, h1, h2, c1, c2, c3⟩
    · rw [heq] at h; simp at h
  · rintro ⟨t0, t1, u0, u1, h1, h2, c1, c2, c3⟩
    rcases latchLogic_spec s with ⟨_, _, _, _, _, _, _, _, heq⟩ |
      ⟨hno, _⟩
    · rw [heq]
    · exact absurd ((latchCond_iff t0 t1 u0 u1).mpr ⟨c1, c2, c3⟩)
        (hno t0 t1 u0 u1 [] h1 h2)

/-- Witness for C1: two 100 ms taps 600 ms apart engage the latch. -/
theorem latch_decision_characterization_witness :
    (latchLogic ⟨true, false, false, [600, 0], [700, 100], false, true,
      false⟩).micLatch = true :=
  (latch_decision_characterization _ (by decide)).1.mpr
    ⟨600, 0, 700, 100, rfl, rfl, by decide, by decide, by decide⟩

/-! ### Key-up case analysis and reachable-state invariants -/

/-- A key-up either leaves the engaged latch in place (capture untouched)
or pauses the microphone, stops transmitting and turns the LED off. -/
theorem txEvent_up_micLatch_cases (t : Int) (s : TalkState) :
    ((txEvent EdgeDir.up t s).micLatch = true ∧
      txEvent EdgeDir.up t s = latchLogic (upRecorded t s)) ∨
    ((txEvent EdgeDir.up t s).micLatch = false ∧
      txEvent EdgeDir.up t s =
        { latchLogic (upRecorded t s) with
          micPaused := true, transmitting := false, talkLed := false }) := by
  by_cases hb : (latchLogic (upRecorded t s)).micLatch = true
  · left
    exact ⟨by simp [txEvent, hb], by simp [txEvent, hb]⟩
  · right
    refine ⟨?_, by simp [txEvent, hb]⟩
    simp only [txEvent, hb, if_false, Bool.not_eq_true] at hb ⊢
    simp [hb]

/-- Invariant tying `state.transmitting` to the microphone stream and the
talk LED: the stream is resumed exactly while transmitting, and the LED
mirrors `transmitting`. -/
def talkInvariant (s : TalkState) : Prop :=
  s.transmitting = !s.micPaused ∧ s.talkLed = s.transmitting

theorem talkInvariant_init : talkInvariant initTalkState := ⟨rfl, rfl⟩

theorem talkInvariant_step (d : EdgeDir) (t : Int) (s : TalkState)
    (h : talkInvariant s) : talkInvariant (txEvent d t s) := by
  cases d
  · exact ⟨rfl, rfl⟩
  · rcases txEvent_up_micLatch_cases t s with ⟨_, heq⟩ | ⟨_, heq⟩
    · rw [heq]
      obtain ⟨f1, f2, f3, -⟩ := latchLogic_fields (upRecorded t s)
      exact ⟨by rw [f1, f2]; exact h.1, by rw [f3, f1]; exact h.2⟩
    · rw [heq]
      exact ⟨rfl, rfl⟩

theorem runTalkFrom_talkInvariant (tr : List (EdgeDir × Int))
    (s : TalkState) (h : talkInvariant s) :
    talkInvariant (runTalkFrom tr s) := by
  induction tr generalizing s with
  | nil => exact h
  | cons e tr ih => exact ih _ (talkInvariant_step e.1 e.2 s h)

/-- C3: talk-button edges drive transmission.  A key-down resumes the
microphone, sets `transmitting` and the talk LED; a key-up pauses the
microphone, clears `transmitting` and the LED unless the latch decision
engaged, in which case capture, `transmitting` and the LED are left
exactly as they were; and over every event sequence the microphone is
resumed exactly while `transmitting` with the LED mirroring it. -/
theorem transmit_invariant (tr : List (EdgeDir × Int)) (s : TalkState)
    (t : Int) :
    ((txEvent EdgeDir.down t s).transmitting = true ∧
     (txEvent EdgeDir.down t s).micPaused = false ∧
     (txEvent EdgeDir.down t s).talkLed = true) ∧
    ((txEvent EdgeDir.up t s).micLatch = false →
      (txEvent EdgeDir.up t s).micPaused = true ∧
      (txEvent EdgeDir.up t s).transmitting = false ∧
      (txEvent EdgeDir.up t s).talkLed = false) ∧
    ((txEvent EdgeDir.up t s).micLatch = true →
      (txEvent EdgeDir.up t s).micPaused = s.micPaused ∧
      (txEvent EdgeDir.up t s).transmitting = s.transmitting ∧
      (txEvent EdgeDir.up t s).talkLed = s.talkLed) ∧
    ((runTalk tr).transmitting = !(runTalk tr).micPaused ∧
     (runTalk tr).talkLed = (runTalk tr).transmitting) := by
  refine ⟨⟨rfl, rfl, rfl⟩, ?_, ?_,
    runTalkFrom_talkInvariant tr initTalkState talkInvariant_init⟩
  · intro hml
    rcases txEvent_up_micLatch_cases t s with ⟨hml2, _⟩ | ⟨_, heq⟩
    · rw [hml] at hml2; exact absurd hml2 (by simp)
    · rw [heq]; exact ⟨rfl, rfl, rfl⟩
  · intro hml
    rcases txEvent_up_micLatch_cases t s with ⟨_, heq⟩ | ⟨hml2, _⟩
    · rw [heq]
      obtain ⟨f1, f2, f3, -⟩ := latchLogic_fields (upRecorded t s)
      exact ⟨f2, f1, f3⟩
    · rw [hml] at hml2; exact absurd hml2 (by simp)

/-- Witness for C3 at a concrete key-down from the initial state. -/
theorem transmit_invariant_witness :
    (txEvent EdgeDir.down 5 initTalkState).transmitting = true :=
  (transmit_invariant [] initTalkState 5).1.1

/-! ### Alternating button traces

Physical button edges alternate: a key-down is always followed by a
key-up.  Under that driver the engaged latch always has at most one
pending entry in the key-down history, so a synthesized key-up
(`unLatchMic`) can never re-engage the latch. -/

def alternates : EdgeDir → List (EdgeDir × Int) → Bool
  | _, [] => true
  | d, e :: tr => decide (e.1 = d) && alternates d.other tr

def afterDir : EdgeDir → List (EdgeDir × Int) → EdgeDir
  | d, [] => d
  | d, _ :: tr => afterDir d.other tr

def latchBound : EdgeDir → Nat
  | EdgeDir.down => 0
  | EdgeDir.up => 1

/-- While the latch is engaged the key-down history is nearly empty;
the bound depends on which edge direction is expected next. -/
def latchTxInv (d : EdgeDir) (s : TalkState) : Prop :=
  s.micLatch = true → s.txTimes.length ≤ latchBound d

theorem latchTxInv_step (d : EdgeDir) (t : Int) (s : TalkState)
    (h : latchTxInv d s) : latchTxInv d.other (txEvent d t s) := by
  cases d
  · intro hm
    have hsm : s.micLatch = true := hm
    have hnil : s.txTimes = [] :=
      List.eq_nil_of_length_eq_zero (Nat.le_zero.mp (h hsm))
    show ((t :: s.txTimes).take 2).length ≤ latchBound EdgeDir.up
    rw [hnil]
    simp [latchBound]
  · intro hm
    rcases txEvent_up_micLatch_cases t s with ⟨hml, heq⟩ | ⟨hml, _⟩
    · rw [heq] at hm ⊢
      rw [latchLogic_latched_txTimes (upRecorded t s) hm]
      decide
    · rw [hml] at hm; exact absurd hm (by simp)

theorem runTalkFrom_latchTxInv (tr : List (EdgeDir × Int)) (d : EdgeDir)
    (s : TalkState) (ha : alternates d tr = true) (h : latchTxInv d s) :
    latchTxInv (afterDir d tr) (runTalkFrom tr s) := by
  induction tr generalizing d s with
  | nil => exact h
  | cons e tr ih =>
    simp only [alternates, Bool.and_eq_true, decide_eq_true_eq] at ha
    obtain ⟨he, ha2⟩ := ha
    subst he
    exact ih e.1.other (txEvent e.1 e.2 s) ha2 (latchTxInv_step e.1 e.2 s h)

theorem runTalk_latched_short (tr : List (EdgeDir × Int))
    (ha : alternates EdgeDir.down tr = true)
    (hm : (runTalk tr).micLatch = true) :
    (runTalk tr).txTimes.length ≤ 1 := by
  have h0 : latchTxInv EdgeDir.down initTalkState := by
    intro h; exact absurd h (by decide)
  have hinv := runTalkFrom_latchTxInv tr EdgeDir.down initTalkState ha h0
  have hb : latchBound (afterDir EdgeDir.down tr) ≤ 1 := by
    cases afterDir EdgeDir.down tr <;> decide
  exact le_trans (hinv hm) hb

/-- C5: `unLatchMic` while not latched throws `ErrorWithStatusCode` 400
and touches nothing; while latched (in any state reached by alternating
hardware edges) it performs exactly a real key-up, leaving
`transmitting = false`, `micLatch = false`, the microphone paused and the
talk LED off. -/
theorem unlatch_spec (tr : List (EdgeDir × Int)) (t : Int)
    (ha : alternates EdgeDir.down tr = true)
    (hm : (runTalk tr).micLatch = true) :
    unLatchMic t (runTalk tr) =
      Except.ok (txEvent EdgeDir.up t (runTalk tr)) ∧
    (txEvent EdgeDir.up t (runTalk tr)).transmitting = false ∧
    (txEvent EdgeDir.up t (runTalk tr)).micLatch = false ∧
    (txEvent EdgeDir.up t (runTalk tr)).micPaused = true ∧
    (txEvent EdgeDir.up t (runTalk tr)).talkLed = false ∧
    (∀ s : TalkState, s.micLatch = false →
      unLatchMic t s = Except.error 400) := by
  have hshort : (upRecorded t (runTalk tr)).txTimes.length ≤ 1 :=
    runTalk_latched_short tr ha hm
  have hlatch := latchLogic_short (upRecorded t (runTalk tr)) hshort
  rcases txEvent_up_micLatch_cases t (runTalk tr) with ⟨hml, heq⟩ |
    ⟨hml, heq⟩
  · rw [heq, hlatch] at hml
    exact absurd hml (by simp)
  · refine ⟨?_, ?_, hml, ?_, ?_, ?_⟩
    · unfold unLatchMic
      rw [if_pos hm]
    · rw [heq]
    · rw [heq]
    · rw [heq]
    · intro u hu
      unfold unLatchMic
      rw [if_neg]
      simp [hu]

/-- The canonical double-tap: two 100 ms presses starting 200 ms apart. -/
def latchTapTrace : List (EdgeDir × Int) :=
  [(EdgeDir.down, 0), (EdgeDir.up, 100), (EdgeDir.down, 200),
   (EdgeDir.up, 300)]

/-- Witness for C5: after a latching double-tap, `unLatchMic` succeeds as
a synthesized key-up and stops transmission. -/
theorem unlatch_spec_witness :
    unLatchMic 400 (runTalk latchTapTrace) =
      Except.ok (txEvent EdgeDir.up 400 (runTalk latchTapTrace)) ∧
    (txEvent EdgeDir.up 400 (runTalk latchTapTrace)).transmitting = false :=
  ⟨(unlatch_spec latchTapTrace 400 (by decide) (by decide)).1,
   (unlatch_spec latchTapTrace 400 (by decide) (by decide)).2.1⟩

/-! ## Channel joining (`MumbleClientWrapper._channelJoinerWithChannelFetchFunc`)

The promise either rejects immediately with a 404 `ErrorWithStatusCode`
when the channel lookup returns nothing, or issues `channel.join()` and
polls via `whileLoop`: each invocation increments `retryCount`, compares
the target channel id against the session's current channel id (modelled
as a function `cur` of the attempt index), rejects with the
"Max retry exceeded" object once `retryCount` exceeds `RETRY_LIMIT`, and
— mismatch or not, settled or not — schedules itself again with
`setTimeout(whileLoop, 0)`.  A promise settles only once, so later
rejects/resolves are no-ops on the settled value. -/

/-- `RETRY_LIMIT = 1000` from the source. -/
def RETRY_LIMIT : Nat := 1000

inductive JoinResult where
  /-- `ErrorWithStatusCode {message: "Channel does not exist", code: 404}` -/
  | notFound (code : Nat)
  /-- the `{message: "Max retry exceeded"}` rejection -/
  | timeout
  /-- `resolve(channel)` -/
  | joined (id : Nat)
deriving Repr, DecidableEq

structure LoopState where
  retryCount : Nat
  settled : Option JoinResult
deriving Repr, DecidableEq

/-- One invocation of `whileLoop`: bump the retry counter, compare ids,
settle the promise if appropriate (first settlement wins), and report
whether another invocation is scheduled (`setTimeout` runs in the
mismatch branch regardless of the rejection). -/
def whileLoopStep (cid : Nat) (curId : Nat) (s : LoopState) :
    LoopState × Bool :=
  let rc := s.retryCount + 1
  if curId ≠ cid then
    (⟨rc, match s.settled with
          | some r => some r
          | none => if RETRY_LIMIT < rc then some JoinResult.timeout
                    else none⟩, true)
  else
    (⟨rc, match s.settled with
          | some r => some r
          | none => some (JoinResult.joined cid)⟩, false)

/-- State of the polling loop after `n` invocations of `whileLoop`;
`cur k` is the session's current channel id observed by the `k`-th
invocation. -/
def loopIter (cid : Nat) (cur : Nat → Nat) : Nat → LoopState
  | 0 => ⟨0, none⟩
  | n + 1 => (whileLoopStep cid (cur (n + 1)) (loopIter cid cur n)).1

/-- `_channelJoinerWithChannelFetchFunc`: result components are the
settled promise value after `fuel` polling invocations, whether
`channel.join()` was issued, and how many polling attempts ran. -/
def channelJoiner (lookup : Option Nat) (cur : Nat → Nat) (fuel : Nat) :
    Option JoinResult × Bool × Nat :=
  match lookup with
  | none => (some (JoinResult.notFound 404), false, 0)
  | some cid => ((loopIter cid cur fuel).settled, true, fuel)

theorem loopIter_retryCount (cid : Nat) (cur : Nat → Nat) (n : Nat) :
    (loopIter cid cur n).retryCount = n := by
  induction n with
  | zero => rfl
  | succ n ih =>
    unfold loopIter whileLoopStep
    split <;> simp [ih]

theorem loopIter_settled_none (cid : Nat) (cur : Nat → Nat)
    (h : ∀ n, cur n ≠ cid) (n : Nat) (hn : n ≤ RETRY_LIMIT) :
    (loopIter cid cur n).settled = none := by
  induction n with
  | zero => rfl
  | succ n ih =>
    unfold loopIter whileLoopStep
    rw [if_pos (h (n + 1))]
    simp only
    rw [ih (Nat.le_of_succ_le hn), loopIter_retryCount]
    rw [if_neg (by omega)]

theorem loopIter_settled_timeout (cid : Nat) (cur : Nat → Nat)
    (h : ∀ n, cur n ≠ cid) (n : Nat) (hn : RETRY_LIMIT < n) :
    (loopIter cid cur n).settled = some JoinResult.timeout := by
  induction n with
  | zero => exact absurd hn (by decide)
  | succ n ih =>
    unfold loopIter whileLoopStep
    rw [if_pos (h (n + 1))]
    simp only
    by_cases hcase : RETRY_LIMIT < n
    · rw [ih hcase]
    · have hn2 : n = RETRY_LIMIT := by omega
      rw [loopIter_settled_none cid cur h n (le_of_eq hn2),
        loopIter_retryCount]
      rw [if_pos (by omega)]

/-- C6: when the channel lookup returns nothing, the joiner rejects
immediately with the 404 `ErrorWithStatusCode`, issues no `channel.join()`
and performs no polling attempt, whatever the session does. -/
theorem join_notFound_immediate (cur : Nat → Nat) (fuel : Nat) :
    channelJoiner none cur fuel = (some (JoinResult.notFound 404), false, 0)
    := rfl

/-- C2 counterexample: against a lookup whose channel id (1) never equals
the session's current channel id (always 0), the promise has NOT been
rejected after exactly `RETRY_LIMIT = 1000` polling attempts — the
rejection only happens on attempt 1001.  This refutes "fails … after
exactly the configured retry budget of 1000 polling attempts". -/
theorem join_timeout_budget_counterexample :
    (channelJoiner (some 1) (fun _ => 0) RETRY_LIMIT).1 = none ∧
    (channelJoiner (some 1) (fun _ => 0) (RETRY_LIMIT + 1)).1 =
      some JoinResult.timeout := by
  constructor
  · simp only [channelJoiner]
    exact loopIter_settled_none 1 (fun _ => 0) (fun _ => Nat.zero_ne_one)
      RETRY_LIMIT (le_refl _)
  · simp only [channelJoiner]
    exact loopIter_settled_timeout 1 (fun _ => 0) (fun _ => Nat.zero_ne_one)
      (RETRY_LIMIT + 1) (by decide)

/-- C2 (amended): against a lookup whose channel id never equals the
session's current channel id, the join promise is still pending after any
number of polling attempts up to and including the `RETRY_LIMIT = 1000`
budget, and is rejected with the timeout error on the 1001st attempt —
the one whose incremented `retryCount` first exceeds the budget. -/
theorem join_timeout_after_budget (cid : Nat) (cur : Nat → Nat)
    (h : ∀ n, cur n ≠ cid) :
    (∀ fuel, fuel ≤ RETRY_LIMIT →
      (channelJoiner (some cid) cur fuel).1 = none) ∧
    (channelJoiner (some cid) cur (RETRY_LIMIT + 1)).1 =
      some JoinResult.timeout := by
  constructor
  · intro fuel hf
    exact loopIter_settled_none cid cur h fuel hf
  · exact loopIter_settled_timeout cid cur h (RETRY_LIMIT + 1) (by decide)

/-- Witness for C2 (amended) at the concrete never-matching session. -/
theorem join_timeout_after_budget_witness :
    (channelJoiner (some 1) (fun _ => 0) RETRY_LIMIT).1 = none ∧
    (channelJoiner (some 1) (fun _ => 0) (RETRY_LIMIT + 1)).1 =
      some JoinResult.timeout :=
  ⟨(join_timeout_after_budget 1 (fun _ => 0) (fun _ => Nat.zero_ne_one)).1
      RETRY_LIMIT (le_refl _),
   (join_timeout_after_budget 1 (fun _ => 0) (fun _ => Nat.zero_ne_one)).2⟩

/-- C10: when the current channel never matches, every invocation of
`whileLoop` schedules another via `setTimeout` — including the ones after
the budget is exhausted and the promise already rejected (the `reject` is
not followed by a `return`) — so the polling recursion never terminates.
-/
theorem poll_loop_reschedules_forever (cid : Nat) (cur : Nat → Nat)
    (h : ∀ n, cur n ≠ cid) (n : Nat) :
    (whileLoopStep cid (cur (n + 1)) (loopIter cid cur n)).2 = true ∧
    (RETRY_LIMIT < n →
      (loopIter cid cur n).settled = some JoinResult.timeout) := by
  constructor
  · unfold whileLoopStep
    rw [if_pos (h (n + 1))]
  · exact loopIter_settled_timeout cid cur h n

/-- Witness for C10 well past the exhausted budget (invocation 1501). -/
theorem poll_loop_reschedules_forever_witness :
    (whileLoopStep 1 0 (loopIter 1 (fun _ => 0) 1500)).2 = true ∧
    (loopIter 1 (fun _ => 0) 1500).settled = some JoinResult.timeout :=
  ⟨(poll_loop_reschedules_forever 1 (fun _ => 0) (fun _ => Nat.zero_ne_one)
      1500).1,
   (poll_loop_reschedules_forever 1 (fun _ => 0) (fun _ => Nat.zero_ne_one)
      1500).2 (by decide)⟩

/-! ## Session client (`MumbleClientWrapper`)

The wrapper's observable state: the `_connected` / `_connectCalled`
flags, the optional `connection` object stored by the transport callback,
and the list of `error` events emitted to subscribers.  The connection
object carries the user's current channel (id plus the messages sent to
it) and whether the library-level `disconnect()` was invoked on it. -/

structure ErrorWithStatusCode where
  code : Nat
  message : String
deriving Repr, DecidableEq

structure MumbleConnection where
  userChannelId : Nat
  channelMessages : List String
  libDisconnected : Bool
deriving Repr, DecidableEq

structure MumbleClientWrapper where
  connected : Bool
  connectionAttempted : Bool
  connection : Option MumbleConnection
  emittedErrors : List ErrorWithStatusCode
deriving Repr, DecidableEq

/-- JavaScript runtime failures surfaced by the wrapper's own code, e.g.
reading a property of `undefined`. -/
inductive JsError where
  | typeError
deriving Repr, DecidableEq

/-- The constructor: both flags false, no connection stored yet. -/
def MumbleClientWrapper.init : MumbleClientWrapper :=
  ⟨false, false, none, []⟩

/-- `connect()` up to (and excluding) the transport callback:
`_connectCalled` is set immediately; nothing else has happened. -/
def MumbleClientWrapper.connectPending (s : MumbleClientWrapper) :
    MumbleClientWrapper :=
  { s with connectionAttempted := true }

/-- A fully successful `connect()`: `_connectCalled` set, the connection
object stored by the transport callback, and `_connected` set once the
`initialized` event fired. -/
def MumbleClientWrapper.connectSuccess (s : MumbleClientWrapper)
    (c : MumbleConnection) : MumbleClientWrapper :=
  { s with connectionAttempted := true, connection := some c,
           connected := true }

/-- `disconnect()`: sets `_connected = false` first, then calls
`this.connection.disconnect()`; when no connection object was ever
stored, that dereference throws a `TypeError` (after the flag is already
cleared). -/
def MumbleClientWrapper.disconnect (s : MumbleClientWrapper) :
    MumbleClientWrapper × Option JsError :=
  match s.connection with
  | none => ({ s with connected := false }, some JsError.typeError)
  | some c =>
    ({ s with connected := false,
              connection := some { c with libDisconnected := true } }, none)

/-- `sendMessageToCurrentChannel(message)`: reads
`this.connection.user.channel` (throwing a `TypeError` when no connection
object exists) and calls `channel.sendMessage(message)` on it — with no
check of the `_connected` flag. -/
def MumbleClientWrapper.sendMessageToCurrentChannel
    (s : MumbleClientWrapper) (msg : String) :
    Except JsError MumbleClientWrapper :=
  match s.connection with
  | none => Except.error JsError.typeError
  | some c =>
    Except.ok
      { s with
        connection :=
          some { c with channelMessages := c.channelMessages ++ [msg] } }

/-- `_onError`, the long-lived error handler bound after the
`initialized` event: it logs and re-emits the error as a terminal
code-500 `ErrorWithStatusCode` to subscribers, and does nothing else. -/
def MumbleClientWrapper.onError (s : MumbleClientWrapper) :
    MumbleClientWrapper :=
  { s with emittedErrors := s.emittedErrors ++
      [⟨500, "Mumble connection has terminated due to an error. Re-connect needed"⟩] }

/-- C7: a transport error arriving after readiness is surfaced only as an
emitted terminal `error` event: the `_connected` flag, the
`_connectCalled` flag and the stored connection are all left untouched
(no automatic downgrade of `connected`, no implicit reconnect). -/
theorem onError_emits_only (s : MumbleClientWrapper)
    (h : s.connected = true) :
    s.onError.connected = true ∧
    s.onError.connectionAttempted = s.connectionAttempted ∧
    s.onError.connection = s.connection ∧
    s.onError.emittedErrors = s.emittedErrors ++
      [⟨500, "Mumble connection has terminated due to an error. Re-connect needed"⟩] :=
  ⟨h, rfl, rfl, rfl⟩

/-- Witness for C7 on a freshly connected client. -/
theorem onError_emits_only_witness :
    (MumbleClientWrapper.onError
      (MumbleClientWrapper.connectSuccess MumbleClientWrapper.init
        ⟨0, [], false⟩)).connected = true :=
  (onError_emits_only
    (MumbleClientWrapper.connectSuccess MumbleClientWrapper.init
      ⟨0, [], false⟩) rfl).1

/-- C9: `disconnect()` on a client whose `connect()` never reached the
transport callback (no connection object stored) throws a `TypeError`
instead of being a no-op, but the `_connected` flag has already been set
to false when the failure occurs. -/
theorem disconnect_never_connected_throws (s : MumbleClientWrapper)
    (h : s.connection = none) :
    s.disconnect = ({ s with connected := false }, some JsError.typeError)
    := by
  unfold MumbleClientWrapper.disconnect
  split
  · rfl
  · rename_i c hc
    rw [h] at hc
    exact absurd hc (by simp)

/-- Witness for C9 on a client with a pending, never-completing connect.
-/
theorem disconnect_never_connected_throws_witness :
    MumbleClientWrapper.disconnect
      (MumbleClientWrapper.connectPending MumbleClientWrapper.init) =
    (⟨false, true, none, []⟩, some JsError.typeError) :=
  disconnect_never_connected_throws
    (MumbleClientWrapper.connectPending MumbleClientWrapper.init) rfl

/-- C8 counterexample: a session that connected successfully and then
called `disconnect()` has `connected = false` but still holds the stale
connection object; `sendMessageToCurrentChannel` neither fails nor is a
no-op — it silently hands the message to the stale connection's current
channel.  This refutes "while the session is not connected, the call has
no effect or fails fast". -/
theorem sendMessage_disconnected_counterexample :
    ((MumbleClientWrapper.connectSuccess MumbleClientWrapper.init
        ⟨0, [], false⟩).disconnect.1.connected = false) ∧
    (MumbleClientWrapper.connectSuccess MumbleClientWrapper.init
        ⟨0, [], false⟩).disconnect.1.sendMessageToCurrentChannel "hello" =
      Except.ok ⟨false, true, some ⟨0, ["hello"], true⟩, []⟩ :=
  ⟨rfl, rfl⟩

/-- C8 (amended): `sendMessageToCurrentChannel` never consults the
`connected` flag.  When no connection object exists (connect never
reached its transport callback) the call fails fast with a `TypeError`;
whenever a connection object exists — connected or not, e.g. after
`disconnect()` — the message is unconditionally sent to that connection's
current channel. -/
theorem sendMessage_no_connected_guard (s : MumbleClientWrapper)
    (msg : String) :
    (s.connection = none →
      s.sendMessageToCurrentChannel msg = Except.error JsError.typeError) ∧
    (∀ c, s.connection = some c →
      s.sendMessageToCurrentChannel msg =
        Except.ok
          { s with
            connection :=
              some { c with
                     channelMessages := c.channelMessages ++ [msg] } }) := by
  constructor
  · intro h
    unfold MumbleClientWrapper.sendMessageToCurrentChannel
    split
    · rfl
    · rename_i c hc
      rw [h] at hc
      exact absurd hc (by simp)
  · intro c h
    unfold MumbleClientWrapper.sendMessageToCurrentChannel
    split
    · rename_i hc
      rw [h] at hc
      exact absurd hc (by simp)
    · rename_i c2 hc
      rw [h] at hc
      obtain rfl : c = c2 := by injection hc
      rfl

/-- Witness for C8 (amended): fail-fast on a never-connected client. -/
theorem sendMessage_no_connected_guard_witness :
    MumbleClientWrapper.sendMessageToCurrentChannel
      MumbleClientWrapper.init "x" = Except.error JsError.typeError :=
  (sendMessage_no_connected_guard MumbleClientWrapper.init "x").1 rfl

/-! ## Status aggregation (`PiComService._errorState`, `_healthCheckCallback`)

`_errorState` is a pure function of the audio-setup enum, the hardware
`setupDone` flag, and the session's `connected` / `connectionAttempted`
flags.  The health-check callback drives the error flasher exactly when
the aggregated status is `ERROR`. -/

inductive AudioStatus where
  /-- `AUDIO_NOT_SETUP = "NOT_CONFIGURED"` -/
  | notConfigured
  /-- `AUDIO_SETUP_ERROR = "AUDIO_SETUP_ERROR"` -/
  | setupFailed
  /-- `AUDIO_CONFIGURED = "CONFIGURED_SUCCESSFULLY"` -/
  | configuredSuccessfully
deriving Repr, DecidableEq

inductive Severity where
  | normal
  | warning
  | error
deriving Repr, DecidableEq, BEq

structure StatusMessage where
  message : String
  status : Severity
deriving Repr, DecidableEq

/-- The five rule messages of `_errorState`, pushed in the source's fixed
order. -/
def errorStateMessages (audio : AudioStatus) (hwSetupDone : Bool)
    (connected : Bool) (connectionAttempted : Bool) : List StatusMessage :=
  (if audio = AudioStatus.notConfigured then
    [⟨"WARNING - Audio Not Setup", Severity.warning⟩] else []) ++
  (if audio = AudioStatus.setupFailed then
    [⟨"ERROR - Audio Error", Severity.error⟩] else []) ++
  (if hwSetupDone = false then
    [⟨"WARNING - Hardware Not Setup", Severity.warning⟩] else []) ++
  (if connected = false then
    (if connectionAttempted then
      [⟨"ERROR - Mumble Not Connected", Severity.error⟩]
    else
      [⟨"WARNING - Mumble Connection Not Attempted", Severity.warning⟩])
  else [])

/-- `PiComService._errorState`: collect the messages, then classify —
`ERROR` when any error-level message exists, else `WARNING` when any
warning-level message exists, else `NORMAL`. -/
def errorState (audio : AudioStatus) (hwSetupDone : Bool)
    (connected : Bool) (connectionAttempted : Bool) :
    Severity × List StatusMessage :=
  let messages :=
    errorStateMessages audio hwSetupDone connected connectionAttempted
  let errorLevel :=
    0 < (messages.filter (fun m => m.status == Severity.error)).length
  let warnLevel :=
    0 < (messages.filter (fun m => m.status == Severity.warning)).length
  if errorLevel then (Severity.error, messages)
  else if warnLevel then (Severity.warning, messages)
  else (Severity.normal, messages)

/-- `PiComService._healthCheckCallback`: drive the hardware error flasher
exactly when the aggregated status is `ERROR`. -/
def healthCheckFlasher (audio : AudioStatus) (hwSetupDone : Bool)
    (connected : Bool) (connectionAttempted : Bool) : Bool :=
  (errorState audio hwSetupDone connected connectionAttempted).1 ==
    Severity.error

/-- C4: the status aggregator is a pure reduction of the sub-component
states.  Overall severity is `ERROR` iff some emitted message is
error-level, `WARNING` iff none is error-level but some is warning-level,
`NORMAL` iff no message at all; the error flasher is driven exactly when
the overall severity is `ERROR`; and the scenario audio `NOT_CONFIGURED`,
hardware set up, session not connected, connect not attempted yields
overall `WARNING` with exactly the two warning messages in rule order. -/
theorem status_aggregator_spec (a : AudioStatus) (hw conn att : Bool) :
    ((errorState a hw conn att).1 = Severity.error ↔
      (errorState a hw conn att).2.any
        (fun m => m.status == Severity.error) = true) ∧
    ((errorState a hw conn att).1 = Severity.warning ↔
      ((errorState a hw conn att).2.any
        (fun m => m.status == Severity.error) = false ∧
       (errorState a hw conn att).2.any
        (fun m => m.status == Severity.warning) = true)) ∧
    ((errorState a hw conn att).1 = Severity.normal ↔
      (errorState a hw conn att).2 = []) ∧
    (healthCheckFlasher a hw conn att = true ↔
      (errorState a hw conn att).1 = Severity.error) ∧
    errorState AudioStatus.notConfigured true false false =
      (Severity.warning,
       [⟨"WARNING - Audio Not Setup", Severity.warning⟩,
        ⟨"WARNING - Mumble Connection Not Attempted", Severity.warning⟩])
    := by
  cases a <;> cases hw <;> cases conn <;> cases att <;> decide
